import Mathlib

/-!
Verification development for the `jit.rs` Function wrapper
(`src/src/libjit/function.rs`), a safe instruction-emission layer over an
external JIT engine (libjit).

The wrapper code under `src/` is the authority and is embedded directly.
The external engine (the `bindings` module), the `Label`, `Context`,
`Value`, `Type` and `util` modules are not under `src/`; the engine entry
points (`jit_insn_*`, `jit_function_*`, `jit_value_get_param`) and those
handle types are modelled from the spec, each in a definition whose doc
comment says so.

Modelling conventions:
- raw native pointers are natural numbers (`Ptr`), with `0` the null pointer;
- wrapper methods that mutate through `self.as_ptr()` are embedded as
  functions on the pointee state `JitFunction`, returning the updated state
  together with the Rust return value (the Rust `()` return is the state
  alone);
- `Type` handles are conflated with the immutable descriptor they point to
  (the spec calls Types immutable descriptors compared structurally);
- value handles created by the engine are fresh numbers from a per-function
  counter, parameter `i` of a function owning `n` parameters having the
  fixed handle `i + 1`.
-/

/-- A raw native pointer at the foreign boundary; `0` is the null pointer. -/
abbrev Ptr := Nat

/-- A platform's application binary interface (`pub enum ABI`). -/
inductive ABI where
  /-- The C application binary interface -/
  | CDECL
deriving DecidableEq

/-- Call flags to a function (`pub enum CallFlags`). -/
inductive CallFlags where
  /-- When the function won't throw a value -/
  | JitCallNothrow
  /-- When the function won't return a value -/
  | JitCallNoReturn
  /-- When the function is tail-recursive -/
  | JitCallTail
deriving DecidableEq

/-- The discriminant values of `CallFlags` (`JitCallNothrow = 1`, ...),
as passed to the engine via `as c_int`. -/
def CallFlags.toInt : CallFlags → Int
  | .JitCallNothrow => 1
  | .JitCallNoReturn => 2
  | .JitCallTail => 4

/-- Modelled from the spec: a Type is an immutable descriptor of either a
scalar kind or a function signature (ordered parameter Types, return Type,
ABI tag); `types.rs` is not under `src/`.  Only the scalar kinds the claims
need are included. -/
inductive JitType where
  | int32
  | void_ptr
  | signature (abi : ABI) (params : List JitType) (ret : JitType)

/-- The number of parameters of a signature Type (0 for a scalar). -/
def JitType.paramCount : JitType → Nat
  | .signature _ ps _ => ps.length
  | _ => 0

/-- Binary instruction opcodes the embedding needs. -/
inductive BinOp where
  | add | sub | mul | div
deriving DecidableEq

/-- Unary instruction opcodes the embedding needs; `load` on a non-pointer
value copies it into a new temporary. -/
inductive UnOp where
  | load | neg
deriving DecidableEq

/-- One engine-side instruction as recorded in a function's instruction
stream.  Call instructions record the call flags the wrapper passed. -/
inductive Insn where
  | setLabel (l : Nat)
  | branch (l : Nat)
  | binop (op : BinOp) (v1 v2 dest : Ptr)
  | unop (op : UnOp) (v dest : Ptr)
  | store (dest src : Ptr)
  | ret (v : Ptr)
  | defaultReturn
  | throw (v : Ptr)
  | callIndirect (func : Ptr) (signature : JitType) (args : List Ptr)
      (flags : Int) (dest : Ptr)
  | callNative (name : String) (func : Ptr) (signature : JitType)
      (args : List Ptr) (flags : Int) (dest : Ptr)

/-- Modelled from the spec: the engine-side function object a
`jit_function_t` points to — a signature plus an accumulating instruction
stream, a fresh-handle counter for values, a fresh-number counter for
labels, the catch-region mark set by `uses_catcher`, and the
building/compiled state. -/
structure JitFunction where
  context : Ptr
  signature : JitType
  insns : List Insn
  nextVal : Nat
  nextLabel : Nat
  hasCatcher : Bool
  isCompiled : Bool

/-- An isolated compilation environment handle (`context.rs` is not under
`src/`; modelled from the spec as an opaque handle). -/
structure Context where
  _context : Ptr

/-- A function to JIT compile: the handle declared by
`native_ref!(Function, _function, jit_function_t)` — an opaque wrapper
around the engine's function pointer (`util.rs` is not under `src/`; the
wrapper shape is modelled from the spec's opaque-native-handle description). -/
structure Function where
  _function : Ptr
deriving DecidableEq

/-- `as_ptr` of the `NativeRef` implementation: expose the wrapped pointer. -/
def Function.as_ptr (self : Function) : Ptr := self._function

/-- `NativeRef::from_ptr` at type `Function`: wrap a raw pointer. -/
def Function.from_ptr (ptr : Ptr) : Function := ⟨ptr⟩

/-- `#[deriving(Clone)]` on the pointer-wrapper: the copy carries the same
underlying pointer. -/
def Function.clone (self : Function) : Function := { _function := self._function }

/-- A JIT Value handle (`value.rs` is not under `src/`; modelled from the
spec as an opaque handle to one node of a function's data-flow graph). -/
structure Value where
  _value : Ptr
deriving DecidableEq

/-- `as_ptr` of the `NativeRef` implementation for `Value`. -/
def Value.as_ptr (self : Value) : Ptr := self._value

/-- `NativeRef::from_ptr` at type `Value`. -/
def Value.from_ptr (ptr : Ptr) : Value := ⟨ptr⟩

/-- Modelled from the spec: the sentinel value of a declared-but-unbound
label (`jit_label_undefined`). -/
def jit_label_undefined : Nat := 4294967295

/-- A Label handle (`label.rs` is not under `src/`; modelled from the spec:
declared unbound, its position value fixed by a set-label or branch
instruction). -/
structure Label where
  value : Nat
deriving DecidableEq

/-- Modelled from the spec: a freshly declared Label is unbound. -/
def Label.new : Label := ⟨jit_label_undefined⟩

/-! ## Engine primitives (the `bindings` module, not under `src/`) -/

/-- Modelled from the spec: `jit_function_create` — allocates a fresh
engine-side function object for the given signature inside the context;
parameter `i` owns value handle `i + 1` (`0` stays the null handle). -/
def jit_function_create (context : Context) (signature : JitType) : JitFunction :=
  { context := context._context
    signature := signature
    insns := []
    nextVal := signature.paramCount + 1
    nextLabel := 0
    hasCatcher := false
    isCompiled := false }

/-- Modelled from the spec: an engine primitive emitting a binary
instruction — appends the instruction and returns a fresh value handle. -/
def emitBinop (op : BinOp) (f : JitFunction) (v1 v2 : Ptr) : JitFunction × Ptr :=
  ({ f with insns := f.insns ++ [.binop op v1 v2 f.nextVal]
            nextVal := f.nextVal + 1 }, f.nextVal)

/-- Modelled from the spec: an engine primitive emitting a unary
instruction — appends the instruction and returns a fresh value handle. -/
def emitUnop (op : UnOp) (f : JitFunction) (v : Ptr) : JitFunction × Ptr :=
  ({ f with insns := f.insns ++ [.unop op v f.nextVal]
            nextVal := f.nextVal + 1 }, f.nextVal)

/-- Modelled from the spec: `jit_insn_add`. -/
def jit_insn_add (f : JitFunction) (v1 v2 : Ptr) : JitFunction × Ptr :=
  emitBinop .add f v1 v2

/-- Modelled from the spec: `jit_insn_sub`. -/
def jit_insn_sub (f : JitFunction) (v1 v2 : Ptr) : JitFunction × Ptr :=
  emitBinop .sub f v1 v2

/-- Modelled from the spec: `jit_insn_mul`. -/
def jit_insn_mul (f : JitFunction) (v1 v2 : Ptr) : JitFunction × Ptr :=
  emitBinop .mul f v1 v2

/-- Modelled from the spec: `jit_insn_load` — loads the contents of a value
into a new temporary value. -/
def jit_insn_load (f : JitFunction) (v : Ptr) : JitFunction × Ptr :=
  emitUnop .load f v

/-- Modelled from the spec: `jit_insn_neg`. -/
def jit_insn_neg (f : JitFunction) (v : Ptr) : JitFunction × Ptr :=
  emitUnop .neg f v

/-- Modelled from the spec: `jit_insn_store`. -/
def jit_insn_store (f : JitFunction) (dest src : Ptr) : JitFunction :=
  { f with insns := f.insns ++ [.store dest src] }

/-- Modelled from the spec: `jit_insn_return` — ends the current path
returning the given value. -/
def jit_insn_return (f : JitFunction) (v : Ptr) : JitFunction :=
  { f with insns := f.insns ++ [.ret v] }

/-- Modelled from the spec: `jit_insn_default_return` — ends the current
path without a value. -/
def jit_insn_default_return (f : JitFunction) : JitFunction :=
  { f with insns := f.insns ++ [.defaultReturn] }

/-- Modelled from the spec: `jit_insn_throw` — transfers control to the
nearest enclosing catch region with the value as payload. -/
def jit_insn_throw (f : JitFunction) (v : Ptr) : JitFunction :=
  { f with insns := f.insns ++ [.throw v] }

/-- Modelled from the spec: `jit_insn_uses_catcher` — marks that the
function contains a catch region so the engine can prepare for it. -/
def jit_insn_uses_catcher (f : JitFunction) : JitFunction :=
  { f with hasCatcher := true }

/-- Modelled from the spec: `jit_insn_label` — binds the given label at the
current instruction position, allocating a fresh label number when the
label is still undefined; the label's position value is written back
through the pointer the caller passed. -/
def jit_insn_label (f : JitFunction) (l : Nat) : JitFunction × Nat :=
  if l = jit_label_undefined then
    ({ f with insns := f.insns ++ [.setLabel f.nextLabel]
              nextLabel := f.nextLabel + 1 }, f.nextLabel)
  else
    ({ f with insns := f.insns ++ [.setLabel l] }, l)

/-- Modelled from the spec: `jit_insn_branch` — emits an unconditional
branch to the label, allocating a fresh label number for a forward
reference to a still-undefined label. -/
def jit_insn_branch (f : JitFunction) (l : Nat) : JitFunction × Nat :=
  if l = jit_label_undefined then
    ({ f with insns := f.insns ++ [.branch f.nextLabel]
              nextLabel := f.nextLabel + 1 }, f.nextLabel)
  else
    ({ f with insns := f.insns ++ [.branch l] }, l)

/-- Modelled from the spec: `jit_value_get_param` — the engine's parameter
accessor; the unchecked foreign boundary yields the null handle for an
out-of-range index rather than reporting an error. -/
def jit_value_get_param (f : JitFunction) (param : Nat) : Ptr :=
  if param < f.signature.paramCount then param + 1 else 0

/-- Modelled from the spec: `jit_insn_call_indirect` — appends an indirect
call instruction carrying the signature, arguments and the call flags the
caller passed, returning a fresh value handle for the call's result. -/
def jit_insn_call_indirect (f : JitFunction) (func : Ptr) (signature : JitType)
    (args : List Ptr) (flags : Int) : JitFunction × Ptr :=
  ({ f with insns := f.insns ++ [.callIndirect func signature args flags f.nextVal]
            nextVal := f.nextVal + 1 }, f.nextVal)

/-- Modelled from the spec: `jit_insn_call_native` — appends a native call
instruction carrying the diagnostic name, the host function pointer, the
signature, arguments and the call flags the caller passed. -/
def jit_insn_call_native (f : JitFunction) (name : String) (native_func : Ptr)
    (signature : JitType) (args : List Ptr) (flags : Int) : JitFunction × Ptr :=
  ({ f with insns := f.insns ++ [.callNative name native_func signature args flags f.nextVal]
            nextVal := f.nextVal + 1 }, f.nextVal)

/-! ## Compilation (engine side) -/

/-- The labels bound by a set-label instruction in the stream. -/
def boundLabels (f : JitFunction) : List Nat :=
  f.insns.filterMap fun i =>
    match i with
    | .setLabel l => some l
    | _ => none

/-- The labels referenced as branch targets in the stream. -/
def referencedLabels (f : JitFunction) : List Nat :=
  f.insns.filterMap fun i =>
    match i with
    | .branch l => some l
    | _ => none

/-- Whether an instruction terminates the current path. -/
def Insn.isTerminator : Insn → Bool
  | .ret _ => true
  | .defaultReturn => true
  | .throw _ => true
  | _ => false

/-- Whether the instruction stream ends in a terminating instruction (the
final path does not fall off the end). -/
def endsTerminated (f : JitFunction) : Bool :=
  match f.insns.reverse.head? with
  | some i => i.isTerminator
  | none => false

/-- Whether some branch references a label never bound in the stream. -/
def hasUnboundLabel (f : JitFunction) : Bool :=
  !((referencedLabels f).all fun l => (boundLabels f).contains l)

/-- The engine's compile-time well-formedness check: every referenced label
bound and every path terminated. -/
def compileOk (f : JitFunction) : Bool :=
  !(hasUnboundLabel f) && endsTerminated f

/-- Modelled from the spec: `jit_function_compile` — performs codegen for a
complete instruction stream, returning a success status; it fails when a
referenced label is unbound or a path lacks a terminating instruction, and
on failure the function stays uncompiled. -/
def jit_function_compile (f : JitFunction) : JitFunction × Bool :=
  if compileOk f then ({ f with isCompiled := true }, true) else (f, false)

/-! ## Execution (engine side) -/

/-- Read a value cell from the run-time environment (0 when unset). -/
def envGet (env : List (Ptr × Int)) (p : Ptr) : Int :=
  match env.find? (fun q => q.1 == p) with
  | some q => q.2
  | none => 0

/-- Evaluate a binary opcode (integer semantics; the engine's promotion and
trap behavior is external, the spec fixes only integer arithmetic). -/
def evalBinOp : BinOp → Int → Int → Int
  | .add, a, b => a + b
  | .sub, a, b => a - b
  | .mul, a, b => a * b
  | .div, a, b => if b = 0 then 0 else a / b

/-- Evaluate a unary opcode. -/
def evalUnOp : UnOp → Int → Int
  | .load, a => a
  | .neg, a => -a

/-- The absolute index of the set-label instruction binding label `l`. -/
def findLabelIdx (l : Nat) : List Insn → Option Nat
  | [] => none
  | i :: rest =>
    match i with
    | .setLabel m =>
      if m = l then some 0 else (findLabelIdx l rest).map (· + 1)
    | _ => (findLabelIdx l rest).map (· + 1)

/-- Modelled from the spec: the engine's execution of a compiled
instruction stream — fuel-bounded interpretation from instruction `pc`,
returning the value of the terminating return (0 for a default return),
`none` when execution gets stuck or fuel runs out. -/
def runInsns : Nat → List Insn → Nat → List (Ptr × Int) → Option Int
  | 0, _, _, _ => none
  | fuel + 1, insns, pc, env =>
    match insns.get? pc with
    | none => none
    | some i =>
      match i with
      | .binop op v1 v2 dest =>
        runInsns fuel insns (pc + 1) ((dest, evalBinOp op (envGet env v1) (envGet env v2)) :: env)
      | .unop op v dest =>
        runInsns fuel insns (pc + 1) ((dest, evalUnOp op (envGet env v)) :: env)
      | .store dest src =>
        runInsns fuel insns (pc + 1) ((dest, envGet env src) :: env)
      | .ret v => some (envGet env v)
      | .defaultReturn => some 0
      | .throw _ => none
      | .setLabel _ => runInsns fuel insns (pc + 1) env
      | .branch l =>
        match findLabelIdx l insns with
        | some j => runInsns fuel insns j env
        | none => none
      | .callIndirect _ _ _ _ _ => runInsns fuel insns (pc + 1) env
      | .callNative _ _ _ _ _ _ => runInsns fuel insns (pc + 1) env

/-- The initial environment of a run: parameter `i`'s handle `i + 1` bound
to the `i`-th argument cell. -/
def initEnv (f : JitFunction) (args : List Int) : List (Ptr × Int) :=
  (List.range f.signature.paramCount).map fun i => (i + 1, args.getD i 0)

/-- Run a function on argument cells from its entry. -/
def runFunction (f : JitFunction) (args : List Int) : Option Int :=
  runInsns 64 f.insns 0 (initEnv f args)

/-- The observable outcome of one `jit_function_apply` invocation: what the
invocation computed, and what was written to the caller's return
destination. -/
structure ApplyResult where
  ran : Option Int
  written : Option Int
deriving DecidableEq

/-- Modelled from the spec: `jit_function_apply` — runs the compiled
function on the argument cells and writes the return value through the
return destination when that destination is non-null; a null destination
discards the return value. -/
def jit_function_apply (f : JitFunction) (args : List Int) (retDestNull : Bool) :
    ApplyResult :=
  let r := if f.isCompiled then runFunction f args else none
  { ran := r, written := if retDestNull then none else r }

/-! ## The wrapper (`src/src/libjit/function.rs`)

Each method below embeds the Rust method of the same name.  A method acts
through `self.as_ptr()` on the engine object the handle points to, so it is
embedded directly on the pointee `JitFunction`, returning the updated
pointee together with the method's Rust return value (a method returning
`()` in Rust returns the pointee alone). -/

/-- `impl Drop for Function`: `jit_function_abandon(self.as_ptr())`,
unconditionally — see the heap-level `Function.drop` below. -/
def Function.new (context : Context) (signature : JitType) : JitFunction :=
  jit_function_create context signature

/-- `insn_binop`: emit through the engine entry point passed as a function
pointer and wrap the resulting value handle. -/
def Function.insn_binop (self : JitFunction) (v1 v2 : Value)
    (f : JitFunction → Ptr → Ptr → JitFunction × Ptr) : JitFunction × Value :=
  let value := f self v1.as_ptr v2.as_ptr
  (value.1, Value.from_ptr value.2)

/-- `insn_unop`. -/
def Function.insn_unop (self : JitFunction) (value : Value)
    (f : JitFunction → Ptr → JitFunction × Ptr) : JitFunction × Value :=
  let value := f self value.as_ptr
  (value.1, Value.from_ptr value.2)

/-- `compile`: invoke `jit_function_compile` and return `()` — the engine's
status is not part of the return value. -/
def Function.compile (self : JitFunction) : JitFunction :=
  (jit_function_compile self).1

/-- The modulus of the `as c_uint` cast: a `uint` index is truncated to 32
bits at the foreign boundary. -/
def c_uint_mod : Nat := 4294967296

/-- `get_param`: pass `param as c_uint` — the index truncated mod 2^32 — to
the engine and wrap whatever handle `jit_value_get_param` yields. -/
def Function.get_param (self : JitFunction) (param : Nat) : Value :=
  Value.from_ptr (jit_value_get_param self (param % c_uint_mod))

/-- `insn_uses_catcher`. -/
def Function.insn_uses_catcher (self : JitFunction) : JitFunction :=
  jit_insn_uses_catcher self

/-- `insn_throw`. -/
def Function.insn_throw (self : JitFunction) (retval : Value) : JitFunction :=
  jit_insn_throw self retval.as_ptr

/-- `insn_return`. -/
def Function.insn_return (self : JitFunction) (retval : Value) : JitFunction :=
  jit_insn_return self retval.as_ptr

/-- `insn_default_return`. -/
def Function.insn_default_return (self : JitFunction) : JitFunction :=
  jit_insn_default_return self

/-- `insn_mul`. -/
def Function.insn_mul (self : JitFunction) (v1 v2 : Value) : JitFunction × Value :=
  Function.insn_binop self v1 v2 jit_insn_mul

/-- `insn_add`. -/
def Function.insn_add (self : JitFunction) (v1 v2 : Value) : JitFunction × Value :=
  Function.insn_binop self v1 v2 jit_insn_add

/-- `insn_sub`. -/
def Function.insn_sub (self : JitFunction) (v1 v2 : Value) : JitFunction × Value :=
  Function.insn_binop self v1 v2 jit_insn_sub

/-- `insn_neg`. -/
def Function.insn_neg (self : JitFunction) (value : Value) : JitFunction × Value :=
  Function.insn_unop self value jit_insn_neg

/-- `insn_dup`: calls `jit_insn_load` directly and wraps the result. -/
def Function.insn_dup (self : JitFunction) (value : Value) : JitFunction × Value :=
  let dup_value := jit_insn_load self value.as_ptr
  (dup_value.1, Value.from_ptr dup_value.2)

/-- `insn_load`: `insn_unop` with `jit_insn_load`. -/
def Function.insn_load (self : JitFunction) (src : Value) : JitFunction × Value :=
  Function.insn_unop self src jit_insn_load

/-- `insn_store`. -/
def Function.insn_store (self : JitFunction) (dest src : Value) : JitFunction :=
  jit_insn_store self dest.as_ptr src.as_ptr

/-- `insn_set_label`: pass the label's position value to `jit_insn_label`;
the label carries the value the engine fixed. -/
def Function.insn_set_label (self : JitFunction) (label : Label) : JitFunction × Label :=
  let r := jit_insn_label self label.value
  (r.1, ⟨r.2⟩)

/-- `insn_branch`. -/
def Function.insn_branch (self : JitFunction) (label : Label) : JitFunction × Label :=
  let r := jit_insn_branch self label.value
  (r.1, ⟨r.2⟩)

/-- `insn_call_indirect`: the wrapper always passes
`JitCallNothrow as c_int` as the call flags. -/
def Function.insn_call_indirect (self : JitFunction) (func : Function)
    (signature : JitType) (args : List Value) : JitFunction × Value :=
  let r := jit_insn_call_indirect self (Function.as_ptr func) signature
    (args.map Value.as_ptr) CallFlags.JitCallNothrow.toInt
  (r.1, Value.from_ptr r.2)

/-- The private `insn_call_native`: the wrapper always passes
`JitCallNothrow as c_int` as the call flags; the host function pointer is
the `*mut c_void` obtained by transmuting the Rust function value. -/
def Function.insn_call_native (self : JitFunction) (name : String)
    (native_func : Ptr) (signature : JitType) (args : List Value) :
    JitFunction × Value :=
  let native_args := args.map Value.as_ptr
  let r := jit_insn_call_native self name native_func signature native_args
    CallFlags.JitCallNothrow.toInt
  (r.1, Value.from_ptr r.2)

/-- `insn_call_native0`: delegate, transmuting the typed host function to a
raw pointer (the Rust type parameters are phantom at the boundary). -/
def Function.insn_call_native0 (self : JitFunction) (name : String)
    (native_func : Ptr) (signature : JitType) (args : List Value) :
    JitFunction × Value :=
  Function.insn_call_native self name native_func signature args

/-- `insn_call_native1`. -/
def Function.insn_call_native1 (self : JitFunction) (name : String)
    (native_func : Ptr) (signature : JitType) (args : List Value) :
    JitFunction × Value :=
  Function.insn_call_native self name native_func signature args

/-- `insn_call_native2`. -/
def Function.insn_call_native2 (self : JitFunction) (name : String)
    (native_func : Ptr) (signature : JitType) (args : List Value) :
    JitFunction × Value :=
  Function.insn_call_native self name native_func signature args

/-- `insn_call_native3`. -/
def Function.insn_call_native3 (self : JitFunction) (name : String)
    (native_func : Ptr) (signature : JitType) (args : List Value) :
    JitFunction × Value :=
  Function.insn_call_native self name native_func signature args

/-- `insn_call_native4`. -/
def Function.insn_call_native4 (self : JitFunction) (name : String)
    (native_func : Ptr) (signature : JitType) (args : List Value) :
    JitFunction × Value :=
  Function.insn_call_native self name native_func signature args

/-- `apply`: `jit_function_apply` with the caller's return cell (non-null
destination). -/
def Function.apply (self : JitFunction) (args : List Int) : ApplyResult :=
  jit_function_apply self args false

/-- `execute`: `jit_function_apply` with `mut_null()` as the destination. -/
def Function.execute (self : JitFunction) (args : List Int) : ApplyResult :=
  jit_function_apply self args true

/-! ## Handle lifecycle (heap level)

`Drop for Function` acts on the handle, not the pointee, so destruction is
modelled over an engine heap recording each function pointer's resource
state and the trace of abandon invocations the engine received. -/

/-- The engine-side resource state of one function object. -/
inductive ResourceState where
  | building | compiled | abandoned | freed
deriving DecidableEq

/-- The engine heap: resource state per function pointer, plus the trace of
`jit_function_abandon` invocations received (most recent first). -/
structure EngineHeap where
  states : List (Ptr × ResourceState)
  abandonCalls : List Ptr
deriving DecidableEq

/-- Modelled from the spec: the release action `jit_function_abandon`
takes — abandon the builder's native resources when the function was never
compiled, release the compiled-code resources otherwise. -/
def releaseAction : ResourceState → ResourceState
  | .building => .abandoned
  | .compiled => .freed
  | s => s

/-- Modelled from the spec: `jit_function_abandon` at the heap level —
record the invocation and apply the state-dependent release action to the
pointee. -/
def EngineHeap.jit_function_abandon (e : EngineHeap) (p : Ptr) : EngineHeap :=
  { states := e.states.map fun q => if q.1 = p then (q.1, releaseAction q.2) else q
    abandonCalls := p :: e.abandonCalls }

/-- The resource state the heap holds for a pointer. -/
def EngineHeap.stateOf (e : EngineHeap) (p : Ptr) : Option ResourceState :=
  match e.states.find? (fun q => q.1 == p) with
  | some q => some q.2
  | none => none

/-- `impl Drop for Function`: `jit_function_abandon(self.as_ptr())`,
invoked unconditionally when a handle goes out of scope. -/
def Function.drop (self : Function) (e : EngineHeap) : EngineHeap :=
  e.jit_function_abandon (Function.as_ptr self)

/-! ## Spec-side comparison definitions

The following definitions follow the spec's words (not the source); each is
used only to compare the source's behavior against the spec's claimed
error reporting. -/

/-- The distinguishable error categories the spec's failure policy names
for contract violations detected by this layer. -/
inductive JitError where
  | outOfRange
  | labelAlreadyBound
  | unboundLabel
  | missingTerminator
deriving DecidableEq

/-- The spec's description of `get_param`: returns the Value for parameter
`index` of the Function's own signature; `index` must be less than the
parameter count, else an out-of-range error is reported. -/
def get_param_spec (self : JitFunction) (param : Nat) : Except JitError Value :=
  if param < self.signature.paramCount then .ok (Value.from_ptr (param + 1))
  else .error .outOfRange

/-- The spec's description of `compile`: freezes the instruction stream and
invokes external codegen; it fails — with the failure surfaced to the
caller — when any referenced Label is unbound or a path lacks a
terminating instruction. -/
def compile_spec (self : JitFunction) : Except JitError JitFunction :=
  if hasUnboundLabel self then .error .unboundLabel
  else if !endsTerminated self then .error .missingTerminator
  else .ok { self with isCompiled := true }

/-- The spec's description of label binding: each Label may be bound at
most once, so binding an already-bound Label fails with a reported error;
otherwise the Label is bound at the current position. -/
def insn_set_label_spec (self : JitFunction) (label : Label) :
    Except JitError (JitFunction × Label) :=
  if (boundLabels self).contains label.value then .error .labelAlreadyBound
  else .ok (Function.insn_set_label self label)

/-- The call flags carried by the most recently emitted instruction, when
that instruction is a call. -/
def lastCallFlags (f : JitFunction) : Option Int :=
  match f.insns.reverse.head? with
  | some (.callIndirect _ _ _ flags _) => some flags
  | some (.callNative _ _ _ _ flags _) => some flags
  | _ => none

/-- Whether an integer of call flags has the no-throw bit
(`JitCallNothrow = 1`) set. -/
def hasNothrowFlag (flags : Int) : Bool :=
  flags % 2 == 1

/-! ## Concrete scenarios used by the claims -/

/-- A signature `() -> int32`. -/
def sigNoArg : JitType := .signature .CDECL [] .int32

/-- The spec's concrete signature `(int32, int32) -> int32`. -/
def sigAdd : JitType := .signature .CDECL [.int32, .int32] .int32

/-- A fresh function of signature `() -> int32`. -/
def emptyFun : JitFunction := Function.new ⟨1⟩ sigNoArg

/-- A function that has declared `uses_catcher`. -/
def catcherFun : JitFunction := Function.insn_uses_catcher emptyFun

/-- An arbitrary callee handle for indirect calls. -/
def someCallee : Function := ⟨42⟩

/-- `catcherFun` after `insn_call_indirect` with no arguments. -/
def catcherAfterCall : JitFunction :=
  (Function.insn_call_indirect catcherFun someCallee sigNoArg []).1

/-- A function whose only instruction branches to a label that is never
bound. -/
def unboundBranchFun : JitFunction :=
  (Function.insn_branch emptyFun Label.new).1

/-- The spec's add scenario, step by step: a fresh `(int32, int32) -> int32`
function. -/
def addFun0 : JitFunction := Function.new ⟨1⟩ sigAdd

/-- Parameter 0 of the add scenario. -/
def addP0 : Value := Function.get_param addFun0 0

/-- Parameter 1 of the add scenario. -/
def addP1 : Value := Function.get_param addFun0 1

/-- The add scenario after emitting `add(param0, param1)`. -/
def addStep : JitFunction × Value := Function.insn_add addFun0 addP0 addP1

/-- The add scenario after emitting the `return` of the sum. -/
def addFunBuilt : JitFunction := Function.insn_return addStep.1 addStep.2

/-- The add scenario after `compile`. -/
def addFunCompiled : JitFunction := Function.compile addFunBuilt

/-- A two-parameter function used for the `get_param` range claims. -/
def twoParamFun : JitFunction := addFun0

/-- The branch-then-bind scenario: a branch to a fresh label... -/
def bindStep1 : JitFunction × Label := Function.insn_branch emptyFun Label.new

/-- ...then the label is bound (its single binding)... -/
def bindStep2 : JitFunction × Label := Function.insn_set_label bindStep1.1 bindStep1.2

/-- ...and the path is terminated, so the function is complete. -/
def boundOnceFun : JitFunction := Function.insn_default_return bindStep2.1

/-- A heap owning a never-compiled function at pointer 5 and a compiled one
at pointer 7. -/
def sampleHeap : EngineHeap := ⟨[(5, .building), (7, .compiled)], []⟩

/-! ## Claim theorems -/

/-- C9: `insn_dup` emits exactly the same instruction and returns the same
result as `insn_load` — both delegate to the engine's load operation on the
same operands, so the two public operations are extensionally equal. -/
theorem C9_insn_dup_eq_insn_load (f : JitFunction) (v : Value) :
    Function.insn_dup f v = Function.insn_load f v := rfl

/-- C7: `execute` performs exactly the same invocation as `apply` — the
computation the engine carries out is identical — except that the return
value is discarded: with the null destination nothing is written to a
caller-supplied return cell. -/
theorem C7_execute_is_apply_discarding_return (f : JitFunction) (args : List Int) :
    (Function.execute f args).ran = (Function.apply f args).ran ∧
    (Function.execute f args).written = none := ⟨rfl, rfl⟩

/-- C8: copying a Function handle (Clone) yields a handle whose underlying
pointer equals the original's, so in every engine heap both handles
dereference to the same native resource — reference semantics, not value
semantics. -/
theorem C8_clone_shares_underlying_pointer (f : Function) (e : EngineHeap) :
    Function.as_ptr (Function.clone f) = Function.as_ptr f ∧
    e.stateOf (Function.as_ptr (Function.clone f)) = e.stateOf (Function.as_ptr f) :=
  ⟨rfl, rfl⟩

/-- C10: dropping a Function handle invokes the engine's abandon operation
on the underlying native function exactly once, unconditionally; a clone
shares the pointer, so dropping both of two clones invokes abandon twice on
the same native function, and after the first drop the remaining clone's
pointer is already among those abandon was invoked on. -/
theorem C10_drop_abandons_once_per_handle (e : EngineHeap) (f : Function) :
    (Function.drop f e).abandonCalls = Function.as_ptr f :: e.abandonCalls ∧
    ((Function.drop (Function.clone f) (Function.drop f e)).abandonCalls.count
        (Function.as_ptr f) = e.abandonCalls.count (Function.as_ptr f) + 2) ∧
    Function.as_ptr (Function.clone f) ∈ (Function.drop f e).abandonCalls := by
  refine ⟨rfl, ?_, ?_⟩
  · simp [Function.drop, EngineHeap.jit_function_abandon, Function.clone,
      Function.as_ptr, List.count_cons]
  · simp [Function.drop, EngineHeap.jit_function_abandon, Function.clone,
      Function.as_ptr]

/-- Looking up pointer `p` after the per-pointer update of the abandon
operation finds the updated entry. -/
theorem find?_releaseAction_update (l : List (Ptr × ResourceState)) (p : Ptr) :
    (l.map fun q => if q.1 = p then (q.1, releaseAction q.2) else q).find?
        (fun q => q.1 == p)
      = (l.find? (fun q => q.1 == p)).map fun q => (q.1, releaseAction q.2) := by
  induction l with
  | nil => rfl
  | cons q rest ih =>
    by_cases h : q.1 = p
    · simp [List.find?_cons, h]
    · have hb : (q.1 == p) = false := by simpa using h
      simp [List.find?_cons, h, hb, ih]

/-- The abandon operation applies the release action to the pointee's
recorded resource state. -/
theorem stateOf_jit_function_abandon (e : EngineHeap) (p : Ptr) :
    (e.jit_function_abandon p).stateOf p = (e.stateOf p).map releaseAction := by
  unfold EngineHeap.jit_function_abandon EngineHeap.stateOf
  rw [find?_releaseAction_update]
  cases e.states.find? (fun q => q.1 == p) with
  | none => rfl
  | some q => rfl

/-- C6: destruction of a Function handle abandons the function's native
resources when the function was never compiled and releases its
compiled-code resources when it was compiled — the release action taken
depends on the pointee's state at destruction time. -/
theorem C6_drop_release_depends_on_state (e : EngineHeap) (f : Function) :
    (e.stateOf (Function.as_ptr f) = some .building →
      (Function.drop f e).stateOf (Function.as_ptr f) = some .abandoned) ∧
    (e.stateOf (Function.as_ptr f) = some .compiled →
      (Function.drop f e).stateOf (Function.as_ptr f) = some .freed) := by
  constructor <;> intro h <;>
    simp [Function.drop, stateOf_jit_function_abandon, h, releaseAction]

/-- Witness for C6 at a concrete heap: dropping the never-compiled function
at pointer 5 abandons its builder resources; dropping the compiled function
at pointer 7 frees its compiled code. -/
theorem C6_drop_release_depends_on_state_witness :
    (Function.drop ⟨5⟩ sampleHeap).stateOf (Function.as_ptr ⟨5⟩) = some .abandoned ∧
    (Function.drop ⟨7⟩ sampleHeap).stateOf (Function.as_ptr ⟨7⟩) = some .freed :=
  ⟨(C6_drop_release_depends_on_state sampleHeap ⟨5⟩).1 (by decide),
   (C6_drop_release_depends_on_state sampleHeap ⟨7⟩).2 (by decide)⟩

/-- C5: the spec's concrete scenario — build a `(int32, int32) -> int32`
Function, emit `add(param0, param1)`, emit `return` of that Value, compile,
apply to `(2, 3)` — succeeds to compile and writes 5 into the return
destination. -/
theorem C5_add_scenario_returns_five :
    (jit_function_compile addFunBuilt).2 = true ∧
    addFunCompiled.isCompiled = true ∧
    (Function.apply addFunCompiled [2, 3]).written = some 5 :=
  ⟨rfl, rfl, rfl⟩

/-- C1 counterexample: a Function that has declared `uses_catcher` still
gets the no-throw flag on an emitted indirect call — where the claim says
the no-throw flag is not applied, the code passes `JitCallNothrow`
unconditionally. -/
theorem C1_counterexample :
    catcherFun.hasCatcher = true ∧
    lastCallFlags catcherAfterCall = some CallFlags.JitCallNothrow.toInt ∧
    (lastCallFlags catcherAfterCall).map hasNothrowFlag = some true :=
  ⟨rfl, rfl, rfl⟩

/-- C1 (amended): every call emitted by `insn_call_indirect` and by the
`insn_call_native` family carries the no-throw call flag unconditionally,
whether or not the Function has declared `uses_catcher`. -/
theorem C1_calls_always_nothrow (self : JitFunction) (func : Function)
    (signature : JitType) (args : List Value) (name : String) (native_func : Ptr) :
    lastCallFlags (Function.insn_call_indirect self func signature args).1
      = some CallFlags.JitCallNothrow.toInt ∧
    lastCallFlags (Function.insn_call_native self name native_func signature args).1
      = some CallFlags.JitCallNothrow.toInt ∧
    lastCallFlags (Function.insn_call_native0 self name native_func signature args).1
      = some CallFlags.JitCallNothrow.toInt ∧
    lastCallFlags (Function.insn_call_native1 self name native_func signature args).1
      = some CallFlags.JitCallNothrow.toInt ∧
    lastCallFlags (Function.insn_call_native2 self name native_func signature args).1
      = some CallFlags.JitCallNothrow.toInt ∧
    lastCallFlags (Function.insn_call_native3 self name native_func signature args).1
      = some CallFlags.JitCallNothrow.toInt ∧
    lastCallFlags (Function.insn_call_native4 self name native_func signature args).1
      = some CallFlags.JitCallNothrow.toInt := by
  refine ⟨?_, ?_, ?_, ?_, ?_, ?_, ?_⟩ <;>
    simp [Function.insn_call_indirect, Function.insn_call_native,
      Function.insn_call_native0, Function.insn_call_native1,
      Function.insn_call_native2, Function.insn_call_native3,
      Function.insn_call_native4, jit_insn_call_indirect, jit_insn_call_native,
      lastCallFlags]

/-- C2 counterexample: with a branch to a never-bound Label, the engine's
compile reports failure, yet the wrapper's `compile` returns normally with
no error information — the Rust method returns `()`, discarding the
engine's status, so the failure is not surfaced to the caller. -/
theorem C2_counterexample :
    hasUnboundLabel unboundBranchFun = true ∧
    compile_spec unboundBranchFun = Except.error JitError.unboundLabel ∧
    (jit_function_compile unboundBranchFun).2 = false ∧
    Function.compile unboundBranchFun = unboundBranchFun :=
  ⟨rfl, rfl, rfl, rfl⟩

/-- C2 (amended): when some referenced Label is unbound, the external
engine's compile does fail and leaves the Function uncompiled, but the
wrapper's `compile` discards the engine's status and returns `()` — the
failure is not surfaced to the caller. -/
theorem C2_compile_discards_failure (f : JitFunction)
    (h : hasUnboundLabel f = true) :
    (jit_function_compile f).2 = false ∧ Function.compile f = f := by
  have hc : compileOk f = false := by simp [compileOk, h]
  constructor <;> simp [jit_function_compile, Function.compile, hc]

/-- Witness for C2 on the concrete unbound-branch function. -/
theorem C2_compile_discards_failure_witness :
    (jit_function_compile unboundBranchFun).2 = false ∧
    Function.compile unboundBranchFun = unboundBranchFun :=
  C2_compile_discards_failure unboundBranchFun (by decide)

/-- C3 counterexample: on a two-parameter Function, `get_param` never
reports the out-of-range error the claim demands.  At index 5 it returns
the Value wrapping the engine's null handle, an ordinary `Value` with no
error channel; at index 2^32 the `as c_uint` cast truncates the index to 0
and the call returns parameter 0's Value — not even the null one. -/
theorem C3_counterexample :
    get_param_spec twoParamFun 5 = Except.error JitError.outOfRange ∧
    Function.get_param twoParamFun 5 = Value.from_ptr 0 ∧
    get_param_spec twoParamFun 4294967296 = Except.error JitError.outOfRange ∧
    Function.get_param twoParamFun 4294967296 = Value.from_ptr 1 :=
  ⟨rfl, rfl, rfl, rfl⟩

/-- C3 (amended): `get_param` first truncates the index by the `as c_uint`
cast (mod 2^32) and performs no range check: when the truncated index is
below the signature's parameter count it returns that parameter's Value —
so an out-of-range index whose truncation lands in range, such as 2^32,
yields parameter 0's Value — and when the truncated index is at or above
the count it returns the Value wrapping the engine's null handle; no error
is reported in either case. -/
theorem C3_get_param_unchecked (f : JitFunction) (i : Nat) :
    (i % c_uint_mod < f.signature.paramCount →
      Function.get_param f i = Value.from_ptr (i % c_uint_mod + 1)) ∧
    (f.signature.paramCount ≤ i % c_uint_mod →
      Function.get_param f i = Value.from_ptr 0) := by
  constructor <;> intro h
  · simp [Function.get_param, jit_value_get_param, h]
  · simp only [Function.get_param, jit_value_get_param]
    rw [if_neg (not_lt.mpr h)]

/-- Witness for C3 on the two-parameter Function: index 0 is parameter 0's
Value, index 5 is the null-wrapping Value, and index 2^32 + 1 truncates to
1 and is parameter 1's Value. -/
theorem C3_get_param_unchecked_witness :
    Function.get_param twoParamFun 0 = Value.from_ptr 1 ∧
    Function.get_param twoParamFun 5 = Value.from_ptr 0 ∧
    Function.get_param twoParamFun 4294967297 = Value.from_ptr 2 :=
  ⟨(C3_get_param_unchecked twoParamFun 0).1 (by decide),
   (C3_get_param_unchecked twoParamFun 5).2 (by decide),
   (C3_get_param_unchecked twoParamFun 4294967297).1 (by decide)⟩

/-- C4 counterexample: binding the same Label a second time does not fail
with a reported error — where the spec-side description demands the error,
the wrapper emits a second set-label instruction and returns normally (its
Rust return type is `()`). -/
theorem C4_counterexample :
    insn_set_label_spec bindStep2.1 bindStep2.2
      = Except.error JitError.labelAlreadyBound ∧
    Function.insn_set_label bindStep2.1 bindStep2.2
      = ({ bindStep2.1 with insns := bindStep2.1.insns ++ [Insn.setLabel 0] },
         bindStep2.2) :=
  ⟨rfl, rfl⟩

/-- C4 (amended): `insn_set_label` performs no double-binding check — for
any Label whose position value is already resolved it unconditionally
appends a set-label instruction and reports no error, so a second binding
is not rejected; the companion half holds: a Label bound exactly once as
the sole target of a prior branch, on a terminated path, compiles
successfully. -/
theorem C4_set_label_unchecked (f : JitFunction) (l : Label)
    (h : l.value ≠ jit_label_undefined) :
    Function.insn_set_label f l
      = ({ f with insns := f.insns ++ [Insn.setLabel l.value] }, l) ∧
    (jit_function_compile boundOnceFun).2 = true := by
  refine ⟨?_, rfl⟩
  simp [Function.insn_set_label, jit_insn_label, h]

/-- Witness for C4 on the concrete branch-then-bind scenario. -/
theorem C4_set_label_unchecked_witness :
    Function.insn_set_label bindStep2.1 bindStep2.2
      = ({ bindStep2.1 with
            insns := bindStep2.1.insns ++ [Insn.setLabel bindStep2.2.value] },
         bindStep2.2) ∧
    (jit_function_compile boundOnceFun).2 = true :=
  C4_set_label_unchecked bindStep2.1 bindStep2.2 (by decide)
